import Mathlib

/-!
Shallow embedding of the authentication core of the `url-shortener-backend`
repository (Hono + Cloudflare D1).

Embedded source files:
* `src/lib/hashAndCompare.ts` (its full text appears in `docs/Appunti.md`):
  `hashPassword`, `verifyPassword`.  JS strings are modelled as `List Char`;
  the PBKDF2 key derivation is an abstract parameter `dk` (a pure function of
  the password and the salt, as the real derivation is); byte arrays are
  `List Nat` with every entry `< 256` where the source guarantees a
  `Uint8Array`.
* `src/lib/jwt.ts`: `generateTokens`, `verifyToken`.
* `src/middleware/auth.middleware.ts`: `authenticate`, `refreshTokenFlow`,
  `setAuthCookies`.
* `src/controllers/auth.controller.ts`: `register`, `login`.
* `src/index.ts`: the global error handler `appOnError`.
* migration `0001`: the `users` table (rows `UserRow`, store `List UserRow`).

Mutation of the D1 database and of the outgoing cookie set is modelled by
explicit state passing: every handler returns the response, the store after
the call and the list of cookies written during the call.
-/

/-! ## Password hashing (`hashAndCompare.ts`, text in `docs/Appunti.md`) -/

/-- One hexadecimal digit, lower case, as produced by JS `toString(16)`
for an argument below 16. -/
def hexDigit (n : Nat) : Char :=
  if n < 10 then Char.ofNat (48 + n) else Char.ofNat (87 + n)

/-- `b.toString(16).padStart(2, "0")` for a byte `b < 256`: exactly two
hex digits. -/
def byteToHex (b : Nat) : List Char :=
  [hexDigit (b / 16), hexDigit (b % 16)]

/-- `Array.from(bytes).map((b) => b.toString(16).padStart(2, "0")).join("")`. -/
def bytesToHex (bs : List Nat) : List Char :=
  (bs.map byteToHex).flatten

/-- JS `String.prototype.split(":")`: the list of maximal colon-free
segments (never empty; `"".split(":")` is `[""]`). -/
def splitOnColon : List Char → List (List Char)
  | [] => [[]]
  | c :: rest =>
    if c = ':' then [] :: splitOnColon rest
    else
      match splitOnColon rest with
      | [] => [[c]]
      | h :: t => (c :: h) :: t

/-- A JS line terminator, which `.` in a regular expression does not match. -/
def isLineTerm (c : Char) : Bool :=
  c = Char.ofNat 10 ∨ c = Char.ofNat 13 ∨ c = Char.ofNat 0x2028 ∨ c = Char.ofNat 0x2029

/-- JS `s.match(/.{1,2}/g)`: scan left to right, greedily taking two
non-line-terminator characters when possible, otherwise one; positions
where `.` does not match are skipped.  The JS call returns `null` exactly
when the result here is `[]`. -/
def chunk2 : List Char → List (List Char)
  | [] => []
  | c :: rest =>
    if isLineTerm c then chunk2 rest
    else
      match rest with
      | [] => [[c]]
      | d :: rest2 =>
        if isLineTerm d then [c] :: chunk2 rest2
        else [c, d] :: chunk2 rest2

/-- Value of one hexadecimal digit, if any. -/
def hexVal (c : Char) : Option Nat :=
  if 48 ≤ c.toNat ∧ c.toNat ≤ 57 then some (c.toNat - 48)
  else if 97 ≤ c.toNat ∧ c.toNat ≤ 102 then some (c.toNat - 87)
  else if 65 ≤ c.toNat ∧ c.toNat ≤ 70 then some (c.toNat - 55)
  else none

/-- JS `parseInt(chunk, 16)` on a chunk produced by `chunk2` (one or two
characters), followed by the `Uint8Array` element conversion that turns
`NaN` into `0`.  `parseInt` consumes digits up to the first invalid
character. -/
def parseHexChunk : List Char → Nat
  | [] => 0
  | [c] => (hexVal c).getD 0
  | c :: d :: _ =>
    match hexVal c with
    | none => 0
    | some x =>
      match hexVal d with
      | none => x
      | some y => 16 * x + y

/-- `hashPassword(password, providedSalt)` from `hashAndCompare.ts`.
`dk` is the PBKDF2-SHA256 (100000 iterations, 256-bit output) derivation,
abstract here: a pure function of the password and the salt, returning the
bytes of the exported key.  The result is `hex(salt) ++ ":" ++ hex(key)`. -/
def hashPassword (dk : List Char → List Nat → List Nat)
    (password : List Char) (salt : List Nat) : List Char :=
  bytesToHex salt ++ ':' :: bytesToHex (dk password salt)

/-- `verifyPassword(storedHash, passwordAttempt)` from `hashAndCompare.ts`:
split the stored value on `:`, reject with `throw new Error("Invalid salt
format")` when the salt half has no regex match, re-derive with the parsed
salt, compare the hash halves with `===` (`none` models JS `undefined`). -/
def verifyPassword (dk : List Char → List Nat → List Nat)
    (storedHash passwordAttempt : List Char) : Except String Bool :=
  let parts := splitOnColon storedHash
  let saltHex := parts.headD []
  let originalHash := (parts.drop 1).head?
  if chunk2 saltHex = [] then
    Except.error "Invalid salt format"
  else
    let salt := (chunk2 saltHex).map parseHexChunk
    let attemptHashWithSalt := hashPassword dk passwordAttempt salt
    let attemptHash := ((splitOnColon attemptHashWithSalt).drop 1).head?
    Except.ok (attemptHash == originalHash)

/-! ## Tokens (`src/lib/jwt.ts`; signing and verification are delegated to
`hono/jwt`, which is an external dependency, modelled from the spec) -/

/-- The claim shape of `src/types.ts` (`JWTPayload`). -/
structure JWTPayload where
  userId : Nat
  email : String
  nbf : Nat
  iat : Nat
  exp : Nat
  deriving DecidableEq

/-- Modelled from the spec: a signed JWS string as produced by `hono/jwt`
`sign` is determined by (and determines) its payload and its signing
secret, so a token is modelled as that pair; two token strings are equal
iff payload and secret agree. -/
structure Token where
  payload : JWTPayload
  secret : String
  deriving DecidableEq

/-- Modelled from the spec: `hono/jwt` `sign(payload, secret)`. -/
def sign (payload : JWTPayload) (secret : String) : Token :=
  ⟨payload, secret⟩

/-- Modelled from the spec: `hono/jwt` `verify(token, secret)` — checks
the signature with `secret` and the time window `nbf ≤ now < exp`,
throwing on any failure. -/
def jwtVerify (t : Token) (secret : String) (now : Nat) : Except String JWTPayload :=
  if t.secret = secret then
    if now < t.payload.nbf then Except.error "JwtTokenNotBefore"
    else if t.payload.exp ≤ now then Except.error "JwtTokenExpired"
    else Except.ok t.payload
  else Except.error "JwtTokenSignatureMismatched"

/-- The environment bindings the middleware reads (`Env`); the two expiries
are kept as the numbers `parseInt` extracts from the configured strings. -/
structure Env where
  ACCESS_TOKEN_SECRET : String
  REFRESH_TOKEN_SECRET : String
  ACCESS_TOKEN_EXPIRY : Nat
  REFRESH_TOKEN_EXPIRY : Nat
  ACCESS_TOKEN_COOKIE_NAME : String
  REFRESH_TOKEN_COOKIE_NAME : String
  deriving DecidableEq

/-- `generateTokens(userId, email, env)` from `src/lib/jwt.ts`: one payload
with `nbf = iat = now`, signed once with the access secret and
`exp = now + ACCESS_TOKEN_EXPIRY`, then re-signed with the refresh secret
after `exp` is overwritten with `now + REFRESH_TOKEN_EXPIRY`.  Returns
(accessToken, refreshToken). -/
def generateTokens (userId : Nat) (email : String) (env : Env) (now : Nat) :
    Token × Token :=
  let payload : JWTPayload :=
    { userId := userId, email := email, nbf := now, iat := now,
      exp := now + env.ACCESS_TOKEN_EXPIRY }
  let accessToken := sign payload env.ACCESS_TOKEN_SECRET
  let payload2 := { payload with exp := now + env.REFRESH_TOKEN_EXPIRY }
  let refreshToken := sign payload2 env.REFRESH_TOKEN_SECRET
  (accessToken, refreshToken)

/-- `verifyToken(token, secret)` from `src/lib/jwt.ts`: `hono/jwt` `verify`
inside `try`/`catch`, returning `null` (here `none`) on any failure. -/
def verifyToken (t : Token) (secret : String) (now : Nat) : Option JWTPayload :=
  (jwtVerify t secret now).toOption

/-! ## The users table (migration `0001`) and the D1 queries the core runs -/

/-- One row of the `users` table. -/
structure UserRow where
  id : Nat
  email : String
  password : List Char
  role : String
  refresh_token : Option Token
  created_at : Nat
  deriving DecidableEq

/-- The `users` table. -/
abbrev Store : Type := List UserRow

/-- `{id, email}`, the shape of `AuthUserId` in `src/types.ts`. -/
structure AuthUserId where
  id : Nat
  email : String
  deriving DecidableEq

/-- `SELECT id, email FROM users WHERE id = ?` followed by `.first()`. -/
def dbFirstIdEmail (store : Store) (uid : Nat) : Option AuthUserId :=
  (List.find? (fun r => r.id == uid) store).map (fun r => ⟨r.id, r.email⟩)

/-- `SELECT * FROM users WHERE email=?` followed by `.first()`. -/
def dbFirstByEmail (store : Store) (email : String) : Option UserRow :=
  List.find? (fun r => r.email == email) store

/-- `SELECT id, email FROM users WHERE id = ? AND refresh_token = ?`
followed by `.first()` (a row whose `refresh_token` is SQL NULL never
matches). -/
def dbFirstByIdAndRefreshToken (store : Store) (uid : Nat) (rt : Token) :
    Option UserRow :=
  List.find? (fun r => r.id == uid && r.refresh_token == some rt) store

/-- `UPDATE users SET refresh_token = ? WHERE id = ?`. -/
def dbUpdateRefreshToken (store : Store) (uid : Nat) (rt : Token) : Store :=
  store.map (fun r => if r.id = uid then { r with refresh_token := some rt } else r)

/-- The AUTOINCREMENT id for the next inserted row. -/
def nextId (store : Store) : Nat :=
  (store.map (fun r => r.id)).foldr Nat.max 0 + 1

/-- The message D1 raises on a violated `email TEXT UNIQUE` constraint. -/
def d1UniqueMsg : String :=
  "D1_ERROR: UNIQUE constraint failed: users.email: SQLITE_CONSTRAINT"

/-- `INSERT INTO users (email, password) VALUES (?, ?)`: fails when the
unique `email` column already holds the value; otherwise appends a row, the
other columns taking their schema defaults (`role` set to the string user, `refresh_token`
NULL, `created_at` the current timestamp `ts`). -/
def dbInsertUser (store : Store) (email : String) (passwordHash : List Char)
    (ts : Nat) : Except String Store :=
  if store.any (fun r => r.email == email) then
    Except.error d1UniqueMsg
  else
    Except.ok (store ++ [{ id := nextId store, email := email,
                           password := passwordHash, role := "user",
                           refresh_token := none, created_at := ts }])

/-! ## Cookies and responses -/

/-- One cookie written with `setCookie` and the options the middleware
passes. -/
structure SetCookie where
  name : String
  value : Token
  httpOnly : Bool
  secure : Bool
  sameSite : String
  path : String
  maxAge : Nat
  deriving DecidableEq

/-- `setAuthCookies(c, accessToken, refreshToken)` from
`src/middleware/auth.middleware.ts` (lines 161-179): both cookies are
http-only, secure, same-site Lax, path slash, and the source passes
`maxAge: parseInt(c.env.REFRESH_TOKEN_EXPIRY)` for the access cookie as
well as for the refresh cookie. -/
def setAuthCookies (env : Env) (accessToken refreshToken : Token) :
    List SetCookie :=
  [{ name := env.ACCESS_TOKEN_COOKIE_NAME, value := accessToken,
     httpOnly := true, secure := true, sameSite := "Lax", path := "/",
     maxAge := env.REFRESH_TOKEN_EXPIRY },
   { name := env.REFRESH_TOKEN_COOKIE_NAME, value := refreshToken,
     httpOnly := true, secure := true, sameSite := "Lax", path := "/",
     maxAge := env.REFRESH_TOKEN_EXPIRY }]

/-- The status/success/message triple of the JSON responses the embedded
handlers produce (the `results` payload of success responses carries no
information the verified claims are about). -/
structure JsonResp where
  status : Nat
  success : Bool
  message : Option String
  deriving DecidableEq

/-- The cookies the request presents, read with `getCookie` under the two
configured cookie names. -/
structure ReqCookies where
  access : Option Token
  refresh : Option Token
  deriving DecidableEq

/-- How the middleware ends: a terminal JSON response, or `next()` with the
given value stored in the context variable `user`. -/
inductive AuthOutcome where
  | respond (status : Nat) (message : String)
  | proceed (user : AuthUserId)
  deriving DecidableEq

/-- Result of a middleware run: the outcome plus the store and the cookies
written while handling the request. -/
structure MwResult where
  outcome : AuthOutcome
  store : Store
  cookies : List SetCookie
  deriving DecidableEq

/-! ## Authentication middleware (`src/middleware/auth.middleware.ts`) -/

/-- `refreshTokenFlow(c, next)` (lines 106-158): read the refresh cookie;
absent → 401 `Authentication required`; verify it with the refresh secret;
invalid → 401 `Invalid refresh token`; look the user up by id and exact
stored refresh token; not found → 401 `Invalid refresh token`; otherwise
mint a new pair, overwrite the stored refresh token, set both cookies and
proceed with the user. -/
def refreshTokenFlow (env : Env) (store : Store) (req : ReqCookies)
    (now : Nat) : MwResult :=
  match req.refresh with
  | none => ⟨.respond 401 "Authentication required", store, []⟩
  | some refreshToken =>
    match verifyToken refreshToken env.REFRESH_TOKEN_SECRET now with
    | none => ⟨.respond 401 "Invalid refresh token", store, []⟩
    | some payload =>
      match dbFirstByIdAndRefreshToken store payload.userId refreshToken with
      | none => ⟨.respond 401 "Invalid refresh token", store, []⟩
      | some user =>
        let pair := generateTokens user.id user.email env now
        let store2 := dbUpdateRefreshToken store user.id pair.2
        ⟨.proceed ⟨user.id, user.email⟩, store2, setAuthCookies env pair.1 pair.2⟩

/-- `authenticate(c, next)` (lines 43-102).  `preUser` is the context variable `user`,
possibly set by an earlier middleware such as `jwtAuthenticate`: if set, the
user is only re-checked in the database (404 `User not found` when gone).
Otherwise: no access cookie → 401 `Authentication required`; access cookie
present but `verifyToken` fails → `refreshTokenFlow`; token valid → re-check
the user in the database (404 when gone) and proceed with the current
`{id, email}`. -/
def authenticate (env : Env) (store : Store) (preUser : Option AuthUserId)
    (req : ReqCookies) (now : Nat) : MwResult :=
  match preUser with
  | some u =>
    match dbFirstIdEmail store u.id with
    | none => ⟨.respond 404 "User not found", store, []⟩
    | some dbUser => ⟨.proceed dbUser, store, []⟩
  | none =>
    match req.access with
    | none => ⟨.respond 401 "Authentication required", store, []⟩
    | some accessToken =>
      match verifyToken accessToken env.ACCESS_TOKEN_SECRET now with
      | none => refreshTokenFlow env store req now
      | some payload =>
        match dbFirstIdEmail store payload.userId with
        | none => ⟨.respond 404 "User not found", store, []⟩
        | some user => ⟨.proceed user, store, []⟩

/-! ## Controllers (`src/controllers/auth.controller.ts`) and the global
error handler (`src/index.ts`) -/

/-- Result of a controller run: response, store after the call, cookies
written. -/
structure HandlerResult where
  resp : JsonResp
  store : Store
  cookies : List SetCookie
  deriving DecidableEq

/-- `register` (lines 16-51): falsy email or password → 400; hash the
password and `INSERT INTO users (email, password)`; on success 201; the
catch inside `register` turns any insert error into a 500 whose message is
`error.message || "Internal server error"`.  `dk` and `salt` stand for the
key derivation and the random salt `hashPassword` consumes, `ts` for the
row timestamp. -/
def register (store : Store) (email : String) (password : List Char)
    (dk : List Char → List Nat → List Nat) (salt : List Nat) (ts : Nat) :
    HandlerResult :=
  if email = "" ∨ password = [] then ⟨⟨400, false, none⟩, store, []⟩
  else
    match dbInsertUser store email (hashPassword dk password salt) ts with
    | Except.ok store2 => ⟨⟨201, true, none⟩, store2, []⟩
    | Except.error msg =>
      ⟨⟨500, false, some (if msg = "" then "Internal server error" else msg)⟩,
       store, []⟩

/-- `login` (lines 58-117): falsy email or password → 400; look the user up
by email, absent → 404 `User not found`; verify the password (a throw is
caught and becomes a 500); wrong password → 401 `Invalid password`; right
password → mint a pair, store the refresh token, set both cookies, 202. -/
def login (env : Env) (store : Store) (email : String) (password : List Char)
    (dk : List Char → List Nat → List Nat) (now : Nat) : HandlerResult :=
  if email = "" ∨ password = [] then ⟨⟨400, false, none⟩, store, []⟩
  else
    match dbFirstByEmail store email with
    | none => ⟨⟨404, false, some "User not found"⟩, store, []⟩
    | some user =>
      match verifyPassword dk user.password password with
      | Except.error msg =>
        ⟨⟨500, false, some (if msg = "" then "Internal server error" else msg)⟩,
         store, []⟩
      | Except.ok true =>
        let pair := generateTokens user.id user.email env now
        let store2 := dbUpdateRefreshToken store user.id pair.2
        ⟨⟨202, true, none⟩, store2, setAuthCookies env pair.1 pair.2⟩
      | Except.ok false => ⟨⟨401, false, some "Invalid password"⟩, store, []⟩

/-- `p` is a contiguous sublist of `s` (JS `String.prototype.includes`). -/
def strStartsWith : List Char → List Char → Bool
  | [], _ => true
  | _ :: _, [] => false
  | p :: ps, c :: cs => p == c && strStartsWith ps cs

/-- JS `err.message?.includes(pat)`. -/
def strContains (pat : List Char) : List Char → Bool
  | [] => strStartsWith pat []
  | c :: cs => strStartsWith pat (c :: cs) || strContains pat cs

/-- `app.onError` (`src/index.ts` lines 32-61): an error whose message
contains `UNIQUE constraint failed` becomes 400 `Email already in use`;
anything else is a 500, `Unhandled error` in production, the raw message in
development. -/
def appOnError (errMsg : String) (isDev : Bool) : JsonResp :=
  if strContains "UNIQUE constraint failed".toList errMsg.toList then
    ⟨400, false, some "Email already in use"⟩
  else
    ⟨500, false, some (if isDev then errMsg else "Unhandled error")⟩

/-! ## Sample configuration and data used by concrete evaluations -/

/-- A sample environment; the two expiries are distinct so that cookie
max-ages reveal which expiry they were computed from. -/
def sampleEnv : Env :=
  { ACCESS_TOKEN_SECRET := "asec", REFRESH_TOKEN_SECRET := "rsec",
    ACCESS_TOKEN_EXPIRY := 900, REFRESH_TOKEN_EXPIRY := 86400,
    ACCESS_TOKEN_COOKIE_NAME := "access_token",
    REFRESH_TOKEN_COOKIE_NAME := "refresh_token" }

/-- A sample access token for user 1, minted at 900, valid up to 1800. -/
def tok1 : Token := ⟨⟨1, "a@b.com", 900, 900, 1800⟩, "asec"⟩

/-- A sample refresh token for user 1, minted at 900 with the refresh
expiry of `sampleEnv`. -/
def rt1 : Token := ⟨⟨1, "a@b.com", 900, 900, 87300⟩, "rsec"⟩

/-- A stored row for user 1 whose current refresh token is `rt1`. -/
def user1 : UserRow :=
  { id := 1, email := "a@b.com", password := ['a', 'a', ':', 'b', 'b'],
    role := "user", refresh_token := some rt1, created_at := 0 }

/-- A one-user store. -/
def store1 : Store := [user1]

/-- A request carrying no access cookie and the valid refresh cookie
`rt1`. -/
def req1 : ReqCookies := ⟨none, some rt1⟩

/-- A key derivation used for concrete evaluations: ignores its arguments
and returns the single byte 1 (hex `01`). -/
def dkW : List Char → List Nat → List Nat := fun _ _ => [1]

/-! ## Helper lemmas about the hex encoding and the colon split -/

/-- Parsing inverts printing for one hex digit. -/
theorem hexVal_hexDigit : ∀ n, n < 16 → hexVal (hexDigit n) = some n := by decide

/-- A hex digit is never the separator colon. -/
theorem hexDigit_ne_colon : ∀ n, n < 16 → hexDigit n ≠ ':' := by decide

/-- A hex digit is never a line terminator. -/
theorem hexDigit_not_lineTerm : ∀ n, n < 16 → isLineTerm (hexDigit n) = false := by
  decide

/-- The high nibble of a byte is below 16. -/
theorem div16_lt (b : Nat) (h : b < 256) : b / 16 < 16 :=
  Nat.div_lt_of_lt_mul h

/-- The hex encoding of a byte list never contains the separator colon. -/
theorem colon_not_mem_bytesToHex (bs : List Nat) (h : ∀ b ∈ bs, b < 256) :
    ':' ∉ bytesToHex bs := by
  intro hmem
  rw [bytesToHex, List.mem_flatten] at hmem
  obtain ⟨l, hl, hcl⟩ := hmem
  rw [List.mem_map] at hl
  obtain ⟨b, hb, rfl⟩ := hl
  have hb256 := h b hb
  simp only [byteToHex, List.mem_cons, List.not_mem_nil, or_false] at hcl
  rcases hcl with h1 | h2
  · exact hexDigit_ne_colon _ (div16_lt b hb256) h1.symm
  · exact hexDigit_ne_colon _ (Nat.mod_lt _ (by norm_num)) h2.symm

/-- Splitting a colon-free string is the identity (one segment). -/
theorem splitOnColon_of_no_colon (a : List Char) (h : ':' ∉ a) :
    splitOnColon a = [a] := by
  induction a with
  | nil => rfl
  | cons c a ih =>
    have hc : ¬ c = ':' := fun hh => h (hh ▸ List.mem_cons_self c a)
    have ha : ':' ∉ a := fun hh => h (List.mem_cons_of_mem c hh)
    simp [splitOnColon, hc, ih ha]

/-- Splitting around an explicit separator peels off the first segment. -/
theorem splitOnColon_append (a b : List Char) (h : ':' ∉ a) :
    splitOnColon (a ++ ':' :: b) = a :: splitOnColon b := by
  induction a with
  | nil => simp [splitOnColon]
  | cons c a ih =>
    have hc : ¬ c = ':' := fun hh => h (hh ▸ List.mem_cons_self c a)
    have ha : ':' ∉ a := fun hh => h (List.mem_cons_of_mem c hh)
    simp only [List.cons_append, splitOnColon, if_neg hc, List.append_eq, ih ha]

/-- One step of the two-character chunking on ordinary characters. -/
theorem chunk2_cons_cons (c d : Char) (rest : List Char)
    (hc : isLineTerm c = false) (hd : isLineTerm d = false) :
    chunk2 (c :: d :: rest) = [c, d] :: chunk2 rest := by
  simp [chunk2, hc, hd]

/-- Chunking the hex encoding of a byte list recovers the per-byte pairs. -/
theorem chunk2_bytesToHex (bs : List Nat) (h : ∀ b ∈ bs, b < 256) :
    chunk2 (bytesToHex bs) = bs.map byteToHex := by
  induction bs with
  | nil => rfl
  | cons b bs ih =>
    have hb := h b (List.mem_cons_self b bs)
    have hrest : ∀ x ∈ bs, x < 256 := fun x hx => h x (List.mem_cons_of_mem b hx)
    have h1 : isLineTerm (hexDigit (b / 16)) = false :=
      hexDigit_not_lineTerm _ (div16_lt b hb)
    have h2 : isLineTerm (hexDigit (b % 16)) = false :=
      hexDigit_not_lineTerm _ (Nat.mod_lt _ (by norm_num))
    simp only [bytesToHex, List.map_cons, List.flatten_cons, byteToHex,
      List.cons_append, List.nil_append]
    rw [chunk2_cons_cons _ _ _ h1 h2]
    rw [← bytesToHex, ih hrest]

/-- Parsing inverts printing for one byte. -/
theorem parseHexChunk_byteToHex (b : Nat) (h : b < 256) :
    parseHexChunk (byteToHex b) = b := by
  simp only [byteToHex, parseHexChunk,
    hexVal_hexDigit _ (div16_lt b h),
    hexVal_hexDigit _ (Nat.mod_lt _ (by norm_num))]
  exact Nat.div_add_mod b 16

/-- Splitting never yields the empty list of segments. -/
theorem splitOnColon_ne_nil (s : List Char) : splitOnColon s ≠ [] := by
  cases s with
  | nil => simp [splitOnColon]
  | cons c rest =>
    by_cases hc : c = ':'
    · simp [splitOnColon, hc]
    · simp only [splitOnColon, if_neg hc]
      cases splitOnColon rest <;> simp

/-- A string containing a colon splits into at least two segments, so the
segment after the first one exists. -/
theorem splitOnColon_snd_append (a b : List Char) :
    ∃ y, ((splitOnColon (a ++ ':' :: b)).drop 1).head? = some y := by
  induction a with
  | nil =>
    simp only [List.nil_append, splitOnColon, if_pos rfl, List.drop, List.head?]
    cases hs : splitOnColon b with
    | nil => exact absurd hs (splitOnColon_ne_nil b)
    | cons h t => exact ⟨h, rfl⟩
  | cons c a ih =>
    by_cases hc : c = ':'
    · subst hc
      simp only [List.cons_append, splitOnColon, if_pos rfl, List.drop, List.head?]
      cases hs : splitOnColon (a ++ ':' :: b) with
      | nil => exact absurd hs (splitOnColon_ne_nil _)
      | cons h t => exact ⟨h, rfl⟩
    · simp only [List.cons_append, splitOnColon, if_neg hc, List.append_eq]
      cases hs : splitOnColon (a ++ ':' :: b) with
      | nil => exact absurd hs (splitOnColon_ne_nil _)
      | cons h t =>
        obtain ⟨y, hy⟩ := ih
        rw [hs] at hy
        exact ⟨y, hy⟩

/-! ## Helper lemmas about the store operations and token verification -/

/-- A row found by id and refresh token carries the requested id. -/
theorem dbFirstByIdAndRefreshToken_id (store : Store) (uid : Nat) (rt : Token)
    (u : UserRow) (h : dbFirstByIdAndRefreshToken store uid rt = some u) :
    u.id = uid := by
  have hp := List.find?_some h
  simp only [Bool.and_eq_true, beq_iff_eq] at hp
  exact hp.1

/-- After the refresh token of a user is overwritten with a different
value, a lookup by the old value finds nothing. -/
theorem dbFind_after_update_ne (store : Store) (uid : Nat) (rtNew rtOld : Token)
    (h : rtNew ≠ rtOld) :
    dbFirstByIdAndRefreshToken (dbUpdateRefreshToken store uid rtNew) uid rtOld
      = none := by
  induction store with
  | nil => rfl
  | cons r rest ih =>
    simp only [dbUpdateRefreshToken, List.map_cons] at *
    by_cases hid : r.id = uid
    · simp only [dbFirstByIdAndRefreshToken, List.find?, if_pos hid]
      have hcond : (uid == uid && (some rtNew == some rtOld)) = false := by
        simp [h]
      simp only [hid, hcond]
      exact ih
    · simp only [dbFirstByIdAndRefreshToken, List.find?, if_neg hid]
      have hcond : (r.id == uid && (r.refresh_token == some rtOld)) = false ∨
          (r.id == uid && (r.refresh_token == some rtOld)) = true := by
        cases (r.id == uid && (r.refresh_token == some rtOld)) <;> simp
      rcases hcond with hc | hc
      · simp only [hc]
        exact ih
      · simp only [Bool.and_eq_true, beq_iff_eq] at hc
        exact absurd hc.1 hid

/-- After the update, every row with the updated id stores the new token. -/
theorem updated_rows_refresh (store : Store) (uid : Nat) (rt : Token) :
    ∀ r ∈ dbUpdateRefreshToken store uid rt, r.id = uid →
      r.refresh_token = some rt := by
  intro r hr hid
  simp only [dbUpdateRefreshToken, List.mem_map] at hr
  obtain ⟨orig, _, rfl⟩ := hr
  by_cases ho : orig.id = uid
  · simp [if_pos ho]
  · rw [if_neg ho] at hid ⊢
    exact absurd hid ho

/-- A successful verification returns exactly the payload of the token. -/
theorem verifyToken_some_payload (t : Token) (s : String) (n : Nat)
    (p : JWTPayload) (h : verifyToken t s n = some p) : p = t.payload := by
  simp only [verifyToken, jwtVerify] at h
  split_ifs at h <;> simp_all [Except.toOption]

/-! ## C1 — absent access cookie -/

/-- C1, counterexample: a request with no access cookie but with a valid
refresh cookie whose token matches the stored one is refused with 401
`Authentication required`; the refresh flow is never reached, contradicting
the claim that an absent access cookie leads to the refresh flow and to an
authenticated request. -/
theorem authenticate_c1_counterexample :
    req1.access = none
  ∧ verifyToken rt1 sampleEnv.REFRESH_TOKEN_SECRET 1000 = some rt1.payload
  ∧ dbFirstByIdAndRefreshToken store1 rt1.payload.userId rt1 = some user1
  ∧ authenticate sampleEnv store1 none req1 1000 =
      ⟨.respond 401 "Authentication required", store1, []⟩ :=
  ⟨rfl, rfl, rfl, rfl⟩

/-- C1, amended: whenever the access-token cookie is absent, `authenticate`
terminates immediately with 401 `Authentication required`, leaving the store
untouched and writing no cookie; the refresh flow runs only when an access
cookie is present but fails verification. -/
theorem authenticate_no_access_cookie_401 (env : Env) (store : Store)
    (req : ReqCookies) (now : Nat) (h : req.access = none) :
    authenticate env store none req now =
      ⟨.respond 401 "Authentication required", store, []⟩ := by
  simp only [authenticate, h]

/-- C1, witness for the amended theorem at a concrete request. -/
theorem authenticate_no_access_cookie_401_witness :
    authenticate sampleEnv store1 none ⟨none, some rt1⟩ 1000 =
      ⟨.respond 401 "Authentication required", store1, []⟩ :=
  authenticate_no_access_cookie_401 sampleEnv store1 ⟨none, some rt1⟩ 1000 rfl

/-! ## C2 — cookie max-ages -/

/-- C2: `setAuthCookies` gives BOTH cookies a max-age of
`REFRESH_TOKEN_EXPIRY`; in the sample environment whose access expiry is
900 and refresh expiry 86400, the access cookie gets max-age 86400, not its
own TTL of 900 — the code conflates the two expiries the claim (and the
spec) require to be independent. -/
theorem setAuthCookies_maxAge_conflated :
    (∀ (env : Env) (a r : Token), (setAuthCookies env a r).map SetCookie.maxAge =
      [env.REFRESH_TOKEN_EXPIRY, env.REFRESH_TOKEN_EXPIRY])
  ∧ (setAuthCookies sampleEnv tok1 rt1).map SetCookie.maxAge = [86400, 86400]
  ∧ sampleEnv.ACCESS_TOKEN_EXPIRY = 900 :=
  ⟨fun _ _ _ => rfl, rfl, rfl⟩

/-! ## C3 — duplicate registration -/

/-- C3: registering an email already present in the store yields a 500
whose message is the raw D1 uniqueness error, because the catch inside
`register` intercepts the error before the global handler runs; the global
handler `appOnError` would have mapped that very message to 400
`Email already in use` (in either mode), but it is never reached. -/
theorem register_duplicate_email_is_500 :
    register store1 "a@b.com" ['p'] dkW [0] 5 =
      ⟨⟨500, false, some d1UniqueMsg⟩, store1, []⟩
  ∧ appOnError d1UniqueMsg false = ⟨400, false, some "Email already in use"⟩
  ∧ appOnError d1UniqueMsg true = ⟨400, false, some "Email already in use"⟩ :=
  ⟨rfl, by decide, by decide⟩

/-! ## C4 — verifyPassword on malformed stored hashes -/

/-- C4, counterexample: on the stored string `:` (empty salt half) the
verifier throws `Invalid salt format` instead of returning false, so
`verifyPassword` does not hold the claimed never-throws contract. -/
theorem verifyPassword_throws_counterexample :
    verifyPassword dkW [':'] [] = Except.error "Invalid salt format" := rfl

/-- C4, amended: `verifyPassword` returns a boolean for every stored string
whose salt half (the text before the first colon) has at least one
regex-matchable character, and in particular returns false — rather than
throwing — when the stored string has no colon separator at all; it throws
`Invalid salt format` exactly when the salt half has no match (empty, or
line terminators only). -/
theorem verifyPassword_cases (dk : List Char → List Nat → List Nat)
    (stored attempt : List Char) :
    (chunk2 ((splitOnColon stored).headD []) = [] →
       verifyPassword dk stored attempt = Except.error "Invalid salt format")
  ∧ (chunk2 ((splitOnColon stored).headD []) ≠ [] →
       ∃ b, verifyPassword dk stored attempt = Except.ok b)
  ∧ (':' ∉ stored → chunk2 stored ≠ [] →
       verifyPassword dk stored attempt = Except.ok false) := by
  refine ⟨fun h => ?_, fun h => ?_, fun hnc hch => ?_⟩
  · simp only [verifyPassword]
    rw [if_pos h]
  · simp only [verifyPassword, if_neg h]
    exact ⟨_, rfl⟩
  · have hsp := splitOnColon_of_no_colon stored hnc
    obtain ⟨y, hy⟩ := splitOnColon_snd_append
      (bytesToHex ((chunk2 stored).map parseHexChunk))
      (bytesToHex (dk attempt ((chunk2 stored).map parseHexChunk)))
    simp only [verifyPassword, hsp, List.headD_cons, List.drop_succ_cons,
      List.drop_zero, List.head?_nil, if_neg hch, hashPassword, hy]
    rfl

/-- C4, witness for the amended theorem: a colon-free stored string makes
the comparison against the missing hash half return false. -/
theorem verifyPassword_cases_witness :
    verifyPassword dkW ['a', 'b'] ['x'] = Except.ok false :=
  (verifyPassword_cases dkW ['a', 'b'] ['x']).2.2 (by decide) (by decide)

/-! ## C5 — hash round-trip -/

/-- C5: for every password, every 16-byte salt and every key-derivation
function producing bytes, verifying the password against the string
produced by hashing it with that salt succeeds. -/
theorem hash_roundtrip (dk : List Char → List Nat → List Nat)
    (password : List Char) (salt : List Nat)
    (hlen : salt.length = 16) (hsalt : ∀ b ∈ salt, b < 256)
    (hdk : ∀ b ∈ dk password salt, b < 256) :
    verifyPassword dk (hashPassword dk password salt) password = Except.ok true := by
  have hs : ':' ∉ bytesToHex salt := colon_not_mem_bytesToHex _ hsalt
  have hd : ':' ∉ bytesToHex (dk password salt) := colon_not_mem_bytesToHex _ hdk
  have hsplit : splitOnColon (hashPassword dk password salt) =
      [bytesToHex salt, bytesToHex (dk password salt)] := by
    rw [hashPassword, splitOnColon_append _ _ hs, splitOnColon_of_no_colon _ hd]
  have hsaltne : salt ≠ [] := by
    intro hnil; rw [hnil] at hlen; simp at hlen
  have hchunk : chunk2 (bytesToHex salt) = salt.map byteToHex :=
    chunk2_bytesToHex _ hsalt
  have hchunkne : chunk2 (bytesToHex salt) ≠ [] := by
    rw [hchunk]; simpa using hsaltne
  have hparse : (chunk2 (bytesToHex salt)).map parseHexChunk = salt := by
    rw [hchunk, List.map_map]
    calc salt.map (parseHexChunk ∘ byteToHex)
        = salt.map id := List.map_congr_left
          (fun b hb => parseHexChunk_byteToHex b (hsalt b hb))
      _ = salt := List.map_id salt
  rw [verifyPassword]
  simp only [hsplit, List.headD, List.drop, List.head?]
  rw [if_neg hchunkne, hparse]
  simp only [hashPassword, splitOnColon_append _ _ hs,
    splitOnColon_of_no_colon _ hd, List.drop, List.head?]
  simp

/-- C5, witness at a concrete password, salt and derivation. -/
theorem hash_roundtrip_witness :
    verifyPassword dkW (hashPassword dkW ['p'] (List.replicate 16 0)) ['p'] =
      Except.ok true :=
  hash_roundtrip dkW ['p'] (List.replicate 16 0) (by decide) (by decide)
    (by decide)

/-! ## C6 — token verification window -/

/-- C6: `verifyToken` returns the claims of the token when the signature
matches and `nbf ≤ now < exp`, and returns none — never an exception — when
the token is expired, not yet valid, or signed with another secret; in
particular any token checked at or after its expiry time yields none. -/
theorem verifyToken_time_window (t : Token) (s : String) (now : Nat) :
    (t.secret = s → t.payload.nbf ≤ now → now < t.payload.exp →
      verifyToken t s now = some t.payload)
  ∧ (t.payload.exp ≤ now → verifyToken t s now = none)
  ∧ (now < t.payload.nbf → verifyToken t s now = none)
  ∧ (t.secret ≠ s → verifyToken t s now = none) := by
  refine ⟨fun h1 h2 h3 => ?_, fun h => ?_, fun h => ?_, fun h => ?_⟩
  · simp only [verifyToken, jwtVerify, if_pos h1, if_neg (Nat.not_lt.mpr h2),
      if_neg (Nat.not_le.mpr h3), Except.toOption]
  · by_cases hs : t.secret = s
    · by_cases hn : now < t.payload.nbf
      · simp [verifyToken, jwtVerify, hs, hn, Except.toOption]
      · simp [verifyToken, jwtVerify, hs, hn, h, Except.toOption]
    · simp [verifyToken, jwtVerify, hs, Except.toOption]
  · by_cases hs : t.secret = s
    · simp [verifyToken, jwtVerify, hs, h, Except.toOption]
    · simp [verifyToken, jwtVerify, hs, Except.toOption]
  · simp [verifyToken, jwtVerify, h, Except.toOption]

/-- C6, witness: the sample access token, expiring at 1800, verifies to
none at time 2000. -/
theorem verifyToken_time_window_witness :
    verifyToken tok1 "asec" 2000 = none :=
  (verifyToken_time_window tok1 "asec" 2000).2.1 (by decide)

/-! ## C7 — refresh-token rotation -/

/-- C7, counterexample to the claim as stated: a refresh executed at the
same epoch second the presented refresh token was minted (time 900, the
`iat` of `rt1`) re-mints a byte-identical token, the rotation stores the
same value back, and a second refresh attempt at time 901 still presenting
the old token succeeds (`proceed`), not 401 — so the previously stored
refresh token still matches after a successful refresh flow. -/
theorem refresh_rotation_counterexample :
    (generateTokens 1 "a@b.com" sampleEnv 900).2 = rt1
  ∧ (refreshTokenFlow sampleEnv store1 req1 900).store = store1
  ∧ (refreshTokenFlow sampleEnv (refreshTokenFlow sampleEnv store1 req1
      900).store req1 901).outcome = .proceed ⟨1, "a@b.com"⟩ :=
  ⟨rfl, rfl, rfl⟩

/-- C7, amended: whenever the newly minted refresh token differs from the
presented one — which holds in every refresh executed at a different epoch
second than the mint second of the old token, since the token embeds its
`iat` and `exp` — a successful refresh overwrites the stored refresh token
of the credential with the newly minted one (so every row of that
credential holds only the new value — at most one valid refresh token per
credential), and a second refresh presenting the old token against the
updated store is refused with 401 `Invalid refresh token`.  Only the
degenerate same-second re-mint, which reproduces the identical token,
escapes this. -/
theorem refresh_rotation (env : Env) (store : Store) (req : ReqCookies)
    (now now2 : Nat) (oldRt : Token) (payload : JWTPayload) (user : UserRow)
    (hr : req.refresh = some oldRt)
    (hv : verifyToken oldRt env.REFRESH_TOKEN_SECRET now = some payload)
    (hl : dbFirstByIdAndRefreshToken store payload.userId oldRt = some user)
    (hne : (generateTokens user.id user.email env now).2 ≠ oldRt) :
    (refreshTokenFlow env store req now).store =
      dbUpdateRefreshToken store user.id
        (generateTokens user.id user.email env now).2
  ∧ (∀ r ∈ (refreshTokenFlow env store req now).store, r.id = user.id →
      r.refresh_token = some (generateTokens user.id user.email env now).2)
  ∧ (refreshTokenFlow env (refreshTokenFlow env store req now).store req
      now2).outcome = .respond 401 "Invalid refresh token" := by
  have hres : refreshTokenFlow env store req now =
      ⟨.proceed ⟨user.id, user.email⟩,
       dbUpdateRefreshToken store user.id
         (generateTokens user.id user.email env now).2,
       setAuthCookies env (generateTokens user.id user.email env now).1
         (generateTokens user.id user.email env now).2⟩ := by
    simp only [refreshTokenFlow, hr, hv, hl]
  have hid : user.id = payload.userId :=
    dbFirstByIdAndRefreshToken_id store payload.userId oldRt user hl
  refine ⟨by rw [hres], ?_, ?_⟩
  · rw [hres]
    exact updated_rows_refresh store user.id _
  · rw [hres]
    simp only [refreshTokenFlow, hr]
    cases hv2 : verifyToken oldRt env.REFRESH_TOKEN_SECRET now2 with
    | none => rfl
    | some p2 =>
      have hp2 : p2 = oldRt.payload := verifyToken_some_payload _ _ _ _ hv2
      have hp : payload = oldRt.payload := verifyToken_some_payload _ _ _ _ hv
      have huid : p2.userId = user.id := by rw [hp2, ← hp, hid]
      have hfind2 : dbFirstByIdAndRefreshToken
          (dbUpdateRefreshToken store user.id
            (generateTokens user.id user.email env now).2) p2.userId oldRt
          = none := by
        rw [huid]
        exact dbFind_after_update_ne store user.id _ oldRt hne
      simp only [hfind2]

/-- C7, witness: after the refresh at time 1000 the stored token changed,
and a retry at time 1001 still presenting `rt1` is refused with 401. -/
theorem refresh_rotation_witness :
    (refreshTokenFlow sampleEnv (refreshTokenFlow sampleEnv store1 req1
      1000).store req1 1001).outcome = .respond 401 "Invalid refresh token" :=
  (refresh_rotation sampleEnv store1 req1 1000 1001 rt1 rt1.payload user1
    rfl rfl rfl (by decide)).2.2

/-! ## C8 — identity re-confirmation -/

/-- C8: for a request carrying an access token that verifies (unexpired,
right secret), `authenticate` re-checks the credential in the store: if no
row with the id named by the token exists the request ends in 404
`User not found` with nothing authenticated, and if the row exists the
identity attached to the context is the current `id` and `email` of the
row, not the claims of the token. -/
theorem authenticate_reconfirms_identity (env : Env) (store : Store)
    (req : ReqCookies) (now : Nat) (t : Token) (payload : JWTPayload)
    (ha : req.access = some t)
    (hv : verifyToken t env.ACCESS_TOKEN_SECRET now = some payload) :
    (dbFirstIdEmail store payload.userId = none →
      authenticate env store none req now =
        ⟨.respond 404 "User not found", store, []⟩)
  ∧ (∀ dbUser, dbFirstIdEmail store payload.userId = some dbUser →
      authenticate env store none req now = ⟨.proceed dbUser, store, []⟩) := by
  refine ⟨fun h => ?_, fun dbUser h => ?_⟩ <;>
    simp only [authenticate, ha, hv, h]

/-- C8, witness: a valid token for the deleted user 1 against the empty
store produces 404. -/
theorem authenticate_reconfirms_identity_witness :
    authenticate sampleEnv [] none ⟨some tok1, none⟩ 1000 =
      ⟨.respond 404 "User not found", [], []⟩ :=
  (authenticate_reconfirms_identity sampleEnv [] ⟨some tok1, none⟩ 1000 tok1
    tok1.payload rfl rfl).1 rfl

/-! ## C9 — failed login leaves the store unchanged -/

/-- C9: when the email matches a stored credential but the password check
returns false, `login` answers 401 `Invalid password`, the store after the
call is the store before it (the refresh_token column keeps its prior
value) and no cookie is written. -/
theorem login_wrong_password_frame (env : Env) (store : Store) (email : String)
    (password : List Char) (dk : List Char → List Nat → List Nat) (now : Nat)
    (u : UserRow) (he : email ≠ "") (hp : password ≠ [])
    (hu : dbFirstByEmail store email = some u)
    (hv : verifyPassword dk u.password password = Except.ok false) :
    login env store email password dk now =
      ⟨⟨401, false, some "Invalid password"⟩, store, []⟩ := by
  have h0 : ¬ (email = "" ∨ password = []) := by simp [he, hp]
  simp only [login, if_neg h0, hu, hv]

/-- C9, witness at the sample store and a wrong password. -/
theorem login_wrong_password_frame_witness :
    login sampleEnv store1 "a@b.com" ['p'] dkW 1000 =
      ⟨⟨401, false, some "Invalid password"⟩, store1, []⟩ :=
  login_wrong_password_frame sampleEnv store1 "a@b.com" ['p'] dkW 1000 user1
    (by decide) (by decide) rfl rfl

/-! ## C10 — registration does not authenticate -/

/-- C10: a successful registration only appends a row holding the email and
the password hash; the new row has a NULL refresh token and role user, the
previous rows are untouched, and no cookie is written — the fresh
credential is not authenticated. -/
theorem register_does_not_authenticate (store : Store) (email : String)
    (password : List Char) (dk : List Char → List Nat → List Nat)
    (salt : List Nat) (ts : Nat) (he : email ≠ "") (hp : password ≠ [])
    (hfree : store.any (fun r => r.email == email) = false) :
    register store email password dk salt ts =
      ⟨⟨201, true, none⟩,
       store ++ [{ id := nextId store, email := email,
                   password := hashPassword dk password salt, role := "user",
                   refresh_token := none, created_at := ts }], []⟩ := by
  have h0 : ¬ (email = "" ∨ password = []) := by simp [he, hp]
  have h1 : ¬ (store.any (fun r => r.email == email) = true) := by simp [hfree]
  simp only [register, if_neg h0, dbInsertUser, if_neg h1]

/-- C10, witness: registering into the empty store. -/
theorem register_does_not_authenticate_witness :
    register [] "a@b.com" ['p'] dkW [0] 5 =
      ⟨⟨201, true, none⟩,
       [{ id := 1, email := "a@b.com",
          password := hashPassword dkW ['p'] [0], role := "user",
          refresh_token := none, created_at := 5 }], []⟩ :=
  register_does_not_authenticate [] "a@b.com" ['p'] dkW [0] 5
    (by decide) (by decide) rfl
